import Mathlib

set_option linter.unusedVariables false

namespace Spec2Proof

/-! ### Credential hashing

The repository builds `pwd_context = CryptContext(schemes=["bcrypt"])` in
src/services/auth.py, src/repository/users.py and src/services/password_reset.py.
bcrypt is modelled as a deterministic salted digest: hashing prepends the fixed
format/salt prefix to the password's characters, and verification recomputes the
digest and compares.  The model keeps the two properties of bcrypt the code relies
on: a digest verifies exactly against the password it hashed (the digest function
is injective), and a digest never equals its own input (it is strictly longer). -/

/-- Model of `pwd_context.hash`: a deterministic bcrypt-style digest of the password. -/
def bcryptHash (password : String) : String :=
  ⟨'$' :: '2' :: 'b' :: '$' :: password.data⟩

/-- Model of `Hash.get_password_hash` (src/services/auth.py lines 63-73). -/
def Hash.get_password_hash (password : String) : String := bcryptHash password

/-- Model of `Hash.verify_password` (src/services/auth.py lines 50-61): recompute the
digest of the plain password and compare with the stored digest. -/
def Hash.verify_password (plain_password hashed_password : String) : Bool :=
  bcryptHash plain_password == hashed_password

/-! ### JWT (python-jose) -/

/-- Claims carried by the tokens this application issues: the subject (`sub`, `none`
when the encoded dict has no such key) and the absolute expiry `exp` in Unix seconds.
`create_email_token` also stores an `iat` claim, which no verification path reads, so
it is not modelled. -/
structure JwtPayload where
  sub : Option String
  exp : Int
deriving DecidableEq, Repr

/-- A signed token, as `jose.jwt.encode` produces it: the payload together with the
key and algorithm it was signed with (decoding checks these). -/
structure Jwt where
  payload : JwtPayload
  secret : String
  alg : String
deriving DecidableEq, Repr

/-- Failures of `jose.jwt.decode`; both are subclasses of `JWTError`. -/
inductive JoseError where
  | invalidToken
  | expired
deriving DecidableEq, Repr

/-- Configuration value `settings.JWT_SECRET` (src/conf/config.py): an
environment-provided secret, modelled as a fixed symbolic string. -/
def JWT_SECRET : String := "JWT_SECRET"

/-- Configuration value `settings.JWT_ALGORITHM` (src/conf/config.py, default HS256). -/
def JWT_ALGORITHM : String := "HS256"

/-- Configuration value `settings.JWT_EXPIRATION_SECONDS` (src/conf/config.py,
default 3600). -/
def JWT_EXPIRATION_SECONDS : Int := 3600

/-- Model of `jose.jwt.encode(payload, secret, algorithm)`. -/
def jwtEncode (payload : JwtPayload) (secret alg : String) : Jwt :=
  { payload := payload, secret := secret, alg := alg }

/-- Model of `jose.jwt.decode(token, secret, algorithms=algs)` evaluated at time `now`:
the signature/algorithm check comes first, then the `exp` claim; jose raises
`ExpiredSignatureError` exactly when `exp < now`. -/
def jwtDecode (t : Jwt) (secret : String) (algs : List String) (now : Int) :
    Except JoseError JwtPayload :=
  if t.secret = secret ∧ t.alg ∈ algs then
    if t.payload.exp < now then Except.error JoseError.expired else Except.ok t.payload
  else Except.error JoseError.invalidToken

/-- Model of `create_access_token` (src/services/auth.py lines 79-103) called with
`data = {"sub": sub}`: `expire = now + expires_delta` when `expires_delta` is truthy
(not `None` and non-zero), else `now + settings.JWT_EXPIRATION_SECONDS`. -/
def create_access_token (sub : Option String) (expires_delta : Option Int) (now : Int) : Jwt :=
  let expire :=
    match expires_delta with
    | some d => if d = 0 then now + JWT_EXPIRATION_SECONDS else now + d
    | none => now + JWT_EXPIRATION_SECONDS
  jwtEncode { sub := sub, exp := expire } JWT_SECRET JWT_ALGORITHM

/-- Modelled from the spec: `create_refresh_token` is imported by src/main.py from
`services.auth` but no definition of it exists under src/.  Spec section 4.2 gives
`issue_refresh(subject, ttl = default_refresh_ttl)` the same shape as an access token
with a longer TTL; the default TTL is modelled as one week. -/
def DEFAULT_REFRESH_TTL : Int := 604800

/-- Modelled from the spec: body of the missing `create_refresh_token` (see
`DEFAULT_REFRESH_TTL`): same encoding as an access token, longer expiry. -/
def create_refresh_token (sub : Option String) (now : Int) : Jwt :=
  jwtEncode { sub := sub, exp := now + DEFAULT_REFRESH_TTL } JWT_SECRET JWT_ALGORITHM

/-- Model of `create_email_token` (src/services/auth.py lines 177-194): 7-day expiry
(the `iat` claim it also sets is never read back, see `JwtPayload`). -/
def create_email_token (sub : Option String) (now : Int) : Jwt :=
  jwtEncode { sub := sub, exp := now + 7 * 86400 } JWT_SECRET JWT_ALGORITHM

/-- Outcomes a Python call can raise besides its normal return value. -/
inductive PyErr where
  | httpException (code : Nat) (detail : String)
  | typeError (msg : String)
  | attributeError (msg : String)
  | keyError (key : String)
  | dbError
deriving DecidableEq, Repr

/-- Model of `get_email_from_token` (src/services/auth.py lines 149-175): decode,
mapping any `JWTError` to HTTP 422; `payload["sub"]` raises an uncaught `KeyError`
when the claim is absent (`KeyError` is not a `JWTError`). -/
def get_email_from_token (tok : Jwt) (now : Int) : Except PyErr String :=
  match jwtDecode tok JWT_SECRET [JWT_ALGORITHM] now with
  | Except.error _ =>
    Except.error (PyErr.httpException 422 "Невірний токен для перевірки електронної пошти")
  | Except.ok payload =>
    match payload.sub with
    | some email => Except.ok email
    | none => Except.error (PyErr.keyError "sub")

/-! ### Data model -/

/-- Model of the `User` ORM row (src/models/models.py lines 41-64), restricted to the
fields the modelled code reads.  Note the model defines `is_verified`; it defines no
attribute named `confirmed`. -/
structure UserRec where
  id : Nat
  username : String
  email : String
  hashed_password : String
  is_verified : Bool
deriving DecidableEq, Repr

/-- Modelled from the spec: `PasswordResetToken` is imported by
src/services/password_reset.py from `models.models`, but src/models/models.py defines
no such class.  Spec section 3: `{id, user_id (references User), token: opaque unique
string, expires_at: absolute timestamp}`. -/
structure PasswordResetToken where
  id : Nat
  user_id : Nat
  token : String
  expires_at : Int
deriving DecidableEq, Repr

/-- Modelled from the spec: `PasswordResetToken.is_expired`, called at
src/services/password_reset.py line 33 but defined nowhere under src/.  Spec section
4.4: `verify_token` "returns absent if not found OR if `now > expires_at`". -/
def PasswordResetToken.is_expired (r : PasswordResetToken) (now : Int) : Bool :=
  decide (r.expires_at < now)

/-- Committed contents of the relational store: the two tables the modelled code
touches. -/
structure Store where
  users : List UserRec
  resetTokens : List PasswordResetToken
deriving DecidableEq, Repr

/-- A row change buffered in a SQLAlchemy session until `commit`. -/
inductive Change where
  | setPassword (userId : Nat) (hashed : String)
  | setVerified (userId : Nat)
  | deleteToken (tokenId : Nat)
  | addToken (r : PasswordResetToken)
deriving DecidableEq, Repr

/-- Effect of one buffered change on the committed store. -/
def applyChange (s : Store) : Change → Store
  | Change.setPassword uid h =>
    { s with users := s.users.map fun u =>
        if u.id == uid then { u with hashed_password := h } else u }
  | Change.setVerified uid =>
    { s with users := s.users.map fun u =>
        if u.id == uid then { u with is_verified := true } else u }
  | Change.deleteToken tid =>
    { s with resetTokens := s.resetTokens.filter fun r => r.id != tid }
  | Change.addToken r => { s with resetTokens := s.resetTokens ++ [r] }

/-- A request-scoped `AsyncSession` (src/database/db.py): the committed store plus the
changes buffered since the last commit.  `commit` applies every buffered change
atomically; a commit the persistence layer rejects rolls the session back, leaving the
committed store untouched. -/
structure DbSession where
  committed : Store
  pending : List Change
deriving DecidableEq, Repr

/-- Model of `session.commit()`; `ok` stands for the persistence layer accepting the
commit. -/
def DbSession.commit (s : DbSession) (ok : Bool) : DbSession × Except PyErr Unit :=
  if ok then
    ({ committed := s.pending.foldl applyChange s.committed, pending := [] }, Except.ok ())
  else
    ({ committed := s.committed, pending := [] }, Except.error PyErr.dbError)

/-- Model of `select(PasswordResetToken).where(PasswordResetToken.token == token)` with
`scalar_one_or_none()` (token strings are unique, so the first match is the row). -/
def selectTokenByString (s : Store) (token : String) : Option PasswordResetToken :=
  s.resetTokens.find? fun r => r.token == token

/-- Model of `select(User).where(User.id == user_id)` with a scalar result. -/
def selectUserById (s : Store) (user_id : Nat) : Option UserRec :=
  s.users.find? fun u => u.id == user_id

/-- Model of `UserRepository.get_user_by_email` (src/repository/users.py lines 50-59). -/
def selectUserByEmail (s : Store) (email : String) : Option UserRec :=
  s.users.find? fun u => u.email == email

/-- Model of `UserRepository.get_user_by_username` (src/repository/users.py lines 72-81). -/
def selectUserByUsername (s : Store) (username : String) : Option UserRec :=
  s.users.find? fun u => u.username == username

/-! ### Password reset service (src/services/password_reset.py) -/

/-- Model of `PasswordResetService.verify_token` (lines 28-35): look the token string
up; absent row and expired row both return `none`. -/
def PasswordResetService.verify_token (s : Store) (token : String) (now : Int) :
    Option PasswordResetToken :=
  match selectTokenByString s token with
  | none => none
  | some reset_token =>
    if reset_token.is_expired now then none else some reset_token

/-- Model of `PasswordResetService.reset_password` (lines 37-51): verify the token
(`none` on failure), load the user (`scalar_one()` raises when no row matches),
buffer the re-hashed password onto the user row and the delete of the consumed token,
then commit once.  `commitOk` stands for the persistence layer accepting that single
commit. -/
def PasswordResetService.reset_password (sess : DbSession) (token new_password : String)
    (now : Int) (commitOk : Bool) : DbSession × Except PyErr (Option UserRec) :=
  match PasswordResetService.verify_token sess.committed token now with
  | none => (sess, Except.ok none)
  | some reset_token =>
    match selectUserById sess.committed reset_token.user_id with
    | none => (sess, Except.error PyErr.dbError)
    | some user =>
      let sess' : DbSession :=
        { sess with pending := sess.pending ++
            [Change.setPassword user.id (bcryptHash new_password),
             Change.deleteToken reset_token.id] }
      match sess'.commit commitOk with
      | (sess'', Except.ok _) =>
        (sess'', Except.ok (some { user with hashed_password := bcryptHash new_password }))
      | (sess'', Except.error e) => (sess'', Except.error e)

/-- Model of `PasswordResetService.create_reset_token` (lines 16-26): one-hour expiry;
`tokenId` and `tokenString` stand for the fresh primary key and `uuid4` string. -/
def PasswordResetService.create_reset_token (sess : DbSession) (user : UserRec)
    (tokenId : Nat) (tokenString : String) (now : Int) (commitOk : Bool) :
    DbSession × Except PyErr String :=
  let sess' : DbSession :=
    { sess with pending := sess.pending ++
        [Change.addToken
          { id := tokenId, user_id := user.id, token := tokenString,
            expires_at := now + 3600 }] }
  match sess'.commit commitOk with
  | (sess'', Except.ok _) => (sess'', Except.ok tokenString)
  | (sess'', Except.error e) => (sess'', Except.error e)

/-! ### Python call binding

Several routes call methods with the wrong number of positional values.  Python binds
a call's positional values against the function's declared parameters at call time
and raises `TypeError` on a mismatch, before the body runs. -/

/-- Positional parameters `UserRepository.create_user` declares
(src/repository/users.py line 36): `self`, `user`. -/
def userRepositoryCreateUserParams : Nat := 2

/-- Positional values `UserService.create_user` supplies in
`self.repository.create_user(body, avatar)` (src/services/user.py line 59): the bound
instance, `body` and `avatar`. -/
def userServiceCreateUserArgs : Nat := 3

/-- Positional parameters `UserService.get_user_by_username` declares
(src/services/user.py line 73): `self`, `username`. -/
def userServiceGetUserByUsernameParams : Nat := 2

/-- Positional values the refresh handler supplies in
`UserService.get_user_by_username(username)` (src/main.py line 232): the method is
accessed on the class, so no instance is bound — only `username` is passed. -/
def refreshGetUserByUsernameArgs : Nat := 1

/-- Python call binding succeeds exactly when the supplied positional values match the
declared positional parameters. -/
def callBindsOk (declaredParams suppliedArgs : Nat) : Bool :=
  declaredParams == suppliedArgs

/-! ### Users: repository and service -/

/-- Model of `UserRepository.create_user` (src/repository/users.py lines 36-48): hash
the received `user.password` value (again, if it is already a digest) and insert the
row; the constructor sets no avatar. -/
def UserRepository.create_user (store : Store) (nextId : Nat)
    (username email password : String) : Store × UserRec :=
  let db_user : UserRec :=
    { id := nextId, username := username, email := email,
      hashed_password := bcryptHash password, is_verified := false }
  ({ store with users := store.users ++ [db_user] }, db_user)

/-- Model of `UserService.create_user` (src/services/user.py lines 36-59): fetch a
Gravatar `avatar` (external call, value passed in), then call
`self.repository.create_user(body, avatar)`.  The binding check reflects Python
raising `TypeError` when the supplied positional values do not match the declared
parameters; on a bound call the repository path would run. -/
def UserService.create_user (store : Store) (nextId : Nat)
    (username email password : String) (avatar : Option String) :
    Store × Except PyErr UserRec :=
  if callBindsOk userRepositoryCreateUserParams userServiceCreateUserArgs then
    let r := UserRepository.create_user store nextId username email password
    (r.1, Except.ok r.2)
  else
    (store,
      Except.error
        (PyErr.typeError "create_user() takes 2 positional arguments but 3 were given"))

/-! ### Auth routes (src/main.py) -/

/-- A user record cached in Redis under `"user:{username}"`: the JSON dict the login
handler subscripts. -/
structure CachedUser where
  username : String
  hashed_password : String
deriving DecidableEq, Repr

/-- Outcome of the login route. -/
inductive LoginResult where
  | success (access_token refresh_token : Jwt)
  | unauthorized (detail : String)
  | attributeError (msg : String)
  | typeError (msg : String)
deriving DecidableEq, Repr

/-- Model of `login_user` (src/main.py lines 185-219), traced line by line:
`user = get_user_by_email(email)`; then `user.username` is evaluated to build the
cache key before any null check, so an unknown email raises `AttributeError`; on a
cache miss `user` stays the ORM object and `user["hashed_password"]` raises
`TypeError` (a `User` instance is not subscriptable); only a cache hit reaches the
password check, the generic 401 branch and token issuance.  The best-effort
`redis.set` after success does not change the handler's result and is not modelled. -/
def login_user (store : Store) (cache : String → Option CachedUser)
    (email password : String) (now : Int) : LoginResult :=
  match selectUserByEmail store email with
  | none => LoginResult.attributeError "NoneType object has no attribute username"
  | some ormUser =>
    match cache ("user:" ++ ormUser.username) with
    | none => LoginResult.typeError "User object is not subscriptable"
    | some cached =>
      if Hash.verify_password password cached.hashed_password then
        LoginResult.success (create_access_token (some cached.username) none now)
          (create_refresh_token (some cached.username) now)
      else
        LoginResult.unauthorized "Неправильний логін або пароль"

/-- Outcome of the refresh route. -/
inductive RefreshResult where
  | unauthorized (detail : String)
  | typeError (msg : String)
  | okUnawaited (username : String)
deriving DecidableEq, Repr

/-- Model of the `refresh_token` handler (src/main.py lines 221-246): decode the
refresh token (`JWTError` becomes 401); `payload.get("sub")` absent becomes 401; then
`UserService.get_user_by_username(username)` is called on the class with one
positional value against two declared parameters, which raises `TypeError` before any
lookup.  Were the call bound, the handler would look the user up (absent → 401) and
place the un-awaited coroutine `create_access_token(data={"sub": username})` in the
response (`okUnawaited`). -/
def refresh_token_handler (store : Store) (tok : Jwt) (now : Int) : RefreshResult :=
  match jwtDecode tok JWT_SECRET [JWT_ALGORITHM] now with
  | Except.error _ => RefreshResult.unauthorized "Invalid or expired token"
  | Except.ok payload =>
    match payload.sub with
    | none => RefreshResult.unauthorized "Could not validate credentials"
    | some username =>
      if callBindsOk userServiceGetUserByUsernameParams refreshGetUserByUsernameArgs then
        match selectUserByUsername store username with
        | none => RefreshResult.unauthorized "User not found"
        | some _ => RefreshResult.okUnawaited username
      else
        RefreshResult.typeError "get_user_by_username() missing 1 required positional argument"

/-- Outcome of the verify-email route. -/
inductive VerifyEmailResult where
  | ok (message : String)
  | httpError (code : Nat) (detail : String)
  | keyError (key : String)
deriving DecidableEq, Repr

/-- Model of the `verify_email` handler (src/main.py lines 275-314).
`get_email_from_token` already maps `JWTError` to HTTP 422, so the handler's own
`except JWTError` never fires.  On the unverified path the source sets
`user.is_verified = True` on the in-memory ORM instance only and then calls
`db.commit()` and `db.refresh(user)` without `await`, although `get_db`
(src/database/db.py) yields an `AsyncSession`: both calls merely build coroutines
that are never run, so no commit is ever issued and the session close at the end of
the request discards the uncommitted change.  The returned store is therefore the
committed store unchanged; only the success message distinguishes this branch. -/
def verify_email_handler (store : Store) (tok : Jwt) (now : Int) :
    Store × VerifyEmailResult :=
  match get_email_from_token tok now with
  | Except.error (PyErr.keyError k) => (store, VerifyEmailResult.keyError k)
  | Except.error (PyErr.httpException code detail) =>
    (store, VerifyEmailResult.httpError code detail)
  | Except.error _ =>
    (store, VerifyEmailResult.httpError 422 "Невірний токен для перевірки електронної пошти")
  | Except.ok email =>
    match selectUserByEmail store email with
    | none => (store, VerifyEmailResult.httpError 404 "User not found")
    | some user =>
      if user.is_verified then
        (store, VerifyEmailResult.httpError 400 "Email is already verified")
      else
        (store, VerifyEmailResult.ok "Email successfully verified")

/-- Outcome of the confirmed-email route. -/
inductive ConfirmedEmailResult where
  | ok (message : String)
  | httpError (code : Nat) (detail : String)
  | keyError (key : String)
  | attributeError (msg : String)
deriving DecidableEq, Repr

/-- Model of the `confirmed_email` handler (src/main.py lines 248-273): an unknown
email raises HTTP 400 "Verification error" (not 404); for any user that is found,
`if user.confirmed:` reads an attribute the `User` model does not define (it defines
`is_verified`), raising `AttributeError` before either remaining branch. -/
def confirmed_email_handler (store : Store) (tok : Jwt) (now : Int) : ConfirmedEmailResult :=
  match get_email_from_token tok now with
  | Except.error (PyErr.keyError k) => ConfirmedEmailResult.keyError k
  | Except.error (PyErr.httpException code detail) => ConfirmedEmailResult.httpError code detail
  | Except.error _ =>
    ConfirmedEmailResult.httpError 422 "Невірний токен для перевірки електронної пошти"
  | Except.ok email =>
    match selectUserByEmail store email with
    | none => ConfirmedEmailResult.httpError 400 "Verification error"
    | some _ => ConfirmedEmailResult.attributeError "User object has no attribute confirmed"

/-- Model of `get_current_user` (src/services/auth.py lines 106-146): decode
(`JWTError` → 401); `payload["sub"]` raises an uncaught `KeyError` when absent; then
the username lookup (absent → 401). -/
def get_current_user (store : Store) (tok : Jwt) (now : Int) : Except PyErr UserRec :=
  match jwtDecode tok JWT_SECRET [JWT_ALGORITHM] now with
  | Except.error _ => Except.error (PyErr.httpException 401 "Could not validate credentials")
  | Except.ok payload =>
    match payload.sub with
    | none => Except.error (PyErr.keyError "sub")
    | some username =>
      match selectUserByUsername store username with
      | none => Except.error (PyErr.httpException 401 "Could not validate credentials")
      | some user => Except.ok user

/-! ### Concrete fixtures for witnesses and counterexamples -/

/-- A cache with no entries (every lookup is a miss). -/
def emptyCache : String → Option CachedUser := fun _ => none

/-- A store with no rows at all. -/
def emptyStore : Store := { users := [], resetTokens := [] }

/-- Fixture user. -/
def aliceRow : UserRec :=
  { id := 1, username := "alice", email := "alice@example.com",
    hashed_password := bcryptHash "old-password", is_verified := false }

/-- Fixture reset token for `aliceRow`, expiring at time 100. -/
def aliceResetRow : PasswordResetToken :=
  { id := 1, user_id := 1, token := "reset-token-1", expires_at := 100 }

/-- Store holding only `aliceRow`. -/
def storeAliceOnly : Store := { users := [aliceRow], resetTokens := [] }

/-- Fresh session over `aliceRow` and her outstanding reset token. -/
def sessResetA : DbSession :=
  { committed := { users := [aliceRow], resetTokens := [aliceResetRow] }, pending := [] }

/-- The session after redeeming `aliceResetRow` with new password "pw2" at time 0. -/
def sessResetA' : DbSession :=
  (PasswordResetService.reset_password sessResetA "reset-token-1" "pw2" 0 true).1

/-- The user row the first redemption returns. -/
def aliceRowAfter : UserRec := { aliceRow with hashed_password := bcryptHash "pw2" }

/-- Store holding one expired reset token and no user rows. -/
def expiredTokStore : Store :=
  { users := [], resetTokens := [{ id := 7, user_id := 1, token := "tokX", expires_at := 10 }] }

/-- Fixture user whose email is already verified. -/
def bobRow : UserRec :=
  { id := 2, username := "bob", email := "bob@example.com",
    hashed_password := bcryptHash "pw", is_verified := true }

/-- Store holding only the verified `bobRow`. -/
def storeBob : Store := { users := [bobRow], resetTokens := [] }

/-- Fixture user whose email is not yet verified. -/
def carolRow : UserRec :=
  { id := 3, username := "carol", email := "carol@example.com",
    hashed_password := bcryptHash "pw", is_verified := false }

/-- Store holding only the unverified `carolRow`. -/
def storeCarol : Store := { users := [carolRow], resetTokens := [] }

/-! ### Facts about the hashing model -/

/-- The modelled digest function is injective. -/
theorem bcryptHash_injEq {p q : String} : bcryptHash p = bcryptHash q ↔ p = q := by
  constructor
  · intro h
    have h2 : '$' :: '2' :: 'b' :: '$' :: p.data = '$' :: '2' :: 'b' :: '$' :: q.data :=
      congrArg String.data h
    have h3 : p.data = q.data := by simpa using h2
    exact congrArg String.mk h3
  · intro h
    rw [h]

/-- A digest is strictly longer than its input, hence never equal to it. -/
theorem bcryptHash_ne_self (p : String) : bcryptHash p ≠ p := by
  intro h
  have h2 := congrArg (fun s : String => s.data.length) h
  simp only [bcryptHash, List.length_cons] at h2
  omega

/-- A password verifies against its own digest. -/
theorem verify_password_self (p : String) : Hash.verify_password p (bcryptHash p) = true := by
  simp [Hash.verify_password]

/-- A password never verifies against the digest of a different password. -/
theorem verify_password_ne {p q : String} (h : p ≠ q) :
    Hash.verify_password p (bcryptHash q) = false := by
  simp only [Hash.verify_password, beq_eq_false_iff_ne, ne_eq]
  intro hc
  exact h (bcryptHash_injEq.mp hc)

/-! ### List lemmas about the modelled queries and updates -/

/-- A successful `verify_token` came from a successful lookup of the token string. -/
theorem verify_token_some_select {s : Store} {T : String} {now : Int}
    {rt : PasswordResetToken}
    (h : PasswordResetService.verify_token s T now = some rt) :
    selectTokenByString s T = some rt := by
  unfold PasswordResetService.verify_token at h
  cases hst : selectTokenByString s T with
  | none => rw [hst] at h; simp at h
  | some r =>
    rw [hst] at h
    by_cases he : r.is_expired now = true
    · simp [he] at h
    · simp [he] at h
      rw [h]

/-- A user found by id has that id. -/
theorem selectUserById_id {s : Store} {uid : Nat} {u : UserRec}
    (h : selectUserById s uid = some u) : u.id = uid := by
  have := List.find?_some h
  simpa using this

/-- Updating the password of every row with a given id keeps the result of the
id lookup, with the new password on the row it returns. -/
theorem find?_users_setPassword (l : List UserRec) (uid : Nat) (hpw : String)
    (u : UserRec) (hf : l.find? (fun x => x.id == uid) = some u) :
    (l.map fun x => if x.id == uid then { x with hashed_password := hpw } else x).find?
      (fun x => x.id == uid) = some { u with hashed_password := hpw } := by
  induction l with
  | nil => simp at hf
  | cons a l ih =>
    by_cases ha : (a.id == uid) = true
    · rw [List.find?_cons_of_pos (p := fun x : UserRec => x.id == uid) _ ha] at hf
      have hu : u = a := by injection hf with h; exact h.symm
      subst hu
      rw [List.map_cons, if_pos ha,
        List.find?_cons_of_pos (p := fun x : UserRec => x.id == uid) _ (by simpa using ha)]
    · have ha' : (a.id == uid) = false := by simpa using ha
      rw [List.find?_cons_of_neg (p := fun x : UserRec => x.id == uid) _ (by simp [ha'])] at hf
      rw [List.map_cons, if_neg (by simp [ha']),
        List.find?_cons_of_neg (p := fun x : UserRec => x.id == uid) _ (by simp [ha'])]
      exact ih hf

/-- When at most one row carries the token string, deleting the row the lookup found
(by its id) leaves no row with that token string. -/
theorem find?_token_erased (l : List PasswordResetToken) (T : String)
    (rt : PasswordResetToken)
    (hlen : (l.filter fun r => r.token == T).length ≤ 1)
    (hfind : l.find? (fun r => r.token == T) = some rt) :
    (l.filter fun r => r.id != rt.id).find? (fun r => r.token == T) = none := by
  induction l with
  | nil => simp at hfind
  | cons a l ih =>
    by_cases ha : (a.token == T) = true
    · rw [List.find?_cons_of_pos (p := fun r : PasswordResetToken => r.token == T) _ ha] at hfind
      have hrt : rt = a := by injection hfind with h; exact h.symm
      subst hrt
      have hfl : l.filter (fun r => r.token == T) = [] := by
        rw [List.filter_cons_of_pos (p := fun r : PasswordResetToken => r.token == T) ha] at hlen
        simp only [List.length_cons] at hlen
        have : (l.filter fun r => r.token == T).length = 0 := by omega
        exact List.length_eq_zero.mp this
      rw [List.filter_cons_of_neg (p := fun r : PasswordResetToken => r.id != rt.id) (by simp)]
      rw [List.find?_eq_none]
      intro x hx
      have hxl : x ∈ l := List.mem_of_mem_filter hx
      intro hxT
      have : x ∈ l.filter (fun r => r.token == T) := List.mem_filter.mpr ⟨hxl, hxT⟩
      simp [hfl] at this
    · have ha' : (a.token == T) = false := by simpa using ha
      rw [List.find?_cons_of_neg (p := fun r : PasswordResetToken => r.token == T) _ (by simp [ha'])] at hfind
      have hlen' : (l.filter fun r => r.token == T).length ≤ 1 := by
        rw [List.filter_cons_of_neg (p := fun r : PasswordResetToken => r.token == T) (by simp [ha'])] at hlen
        exact hlen
      have ihh := ih hlen' hfind
      by_cases hai : (a.id != rt.id) = true
      · rw [List.filter_cons_of_pos (p := fun r : PasswordResetToken => r.id != rt.id) hai,
          List.find?_cons_of_neg (p := fun r : PasswordResetToken => r.token == T) _ (by simp [ha'])]
        exact ihh
      · rw [List.filter_cons_of_neg (p := fun r : PasswordResetToken => r.id != rt.id) (by simpa using hai)]
        exact ihh

/-! ### Shape lemmas for the password-reset flow -/

/-- A failed `verify_token` makes `reset_password` return `none` with the session
untouched. -/
theorem reset_password_invalid_shape (sess : DbSession) (T p : String) (now : Int)
    (ok : Bool) (hv : PasswordResetService.verify_token sess.committed T now = none) :
    PasswordResetService.reset_password sess T p now ok = (sess, Except.ok none) := by
  unfold PasswordResetService.reset_password
  rw [hv]

/-- A verified token whose user row is missing makes `scalar_one()` raise, with the
session untouched. -/
theorem reset_password_nouser_shape (sess : DbSession) (T p : String) (now : Int)
    (ok : Bool) (rt : PasswordResetToken)
    (hv : PasswordResetService.verify_token sess.committed T now = some rt)
    (hu : selectUserById sess.committed rt.user_id = none) :
    PasswordResetService.reset_password sess T p now ok
      = (sess, Except.error PyErr.dbError) := by
  unfold PasswordResetService.reset_password
  rw [hv]
  simp [hu]

/-- The success path: password update and token delete are buffered and the single
commit applies them both. -/
theorem reset_password_success_shape (sess : DbSession) (T p : String) (now : Int)
    (rt : PasswordResetToken) (u : UserRec)
    (hv : PasswordResetService.verify_token sess.committed T now = some rt)
    (hu : selectUserById sess.committed rt.user_id = some u) :
    PasswordResetService.reset_password sess T p now true
      = ({ committed := (sess.pending ++
              [Change.setPassword u.id (bcryptHash p), Change.deleteToken rt.id]).foldl
              applyChange sess.committed,
           pending := [] },
         Except.ok (some { u with hashed_password := bcryptHash p })) := by
  unfold PasswordResetService.reset_password
  rw [hv]
  simp [hu, DbSession.commit]

/-- A rejected commit rolls back: the committed store is untouched and the error
propagates. -/
theorem reset_password_commitfail_shape (sess : DbSession) (T p : String) (now : Int)
    (rt : PasswordResetToken) (u : UserRec)
    (hv : PasswordResetService.verify_token sess.committed T now = some rt)
    (hu : selectUserById sess.committed rt.user_id = some u) :
    PasswordResetService.reset_password sess T p now false
      = ({ committed := sess.committed, pending := [] }, Except.error PyErr.dbError) := by
  unfold PasswordResetService.reset_password
  rw [hv]
  simp [hu, DbSession.commit]

/-! ### Claim theorems -/

/-- C4: for every token string, `PasswordResetService.verify_token` returns the same
absent value (`none`) both when no stored reset token carries that string and when a
matching stored token exists but the current time is past its `expires_at`; the two
failure cases are indistinguishable to the caller. -/
theorem verify_token_miss_and_expiry_agree (s : Store) (T : String) (now : Int)
    (h : selectTokenByString s T = none ∨
      ∃ rt, selectTokenByString s T = some rt ∧ rt.expires_at < now) :
    PasswordResetService.verify_token s T now = none := by
  unfold PasswordResetService.verify_token
  rcases h with h | ⟨rt, hrt, hexp⟩
  · rw [h]
  · rw [hrt]
    simp [PasswordResetToken.is_expired, hexp]

/-- Witness for C4: a concrete store where the lookup of "missing" fails and the
stored token "tokX" is past its expiry; both calls return `none`. -/
theorem verify_token_miss_and_expiry_agree_w :
    PasswordResetService.verify_token expiredTokStore "tokX" 20 = none ∧
    PasswordResetService.verify_token expiredTokStore "missing" 20 = none := by
  constructor
  · exact verify_token_miss_and_expiry_agree expiredTokStore "tokX" 20
      (Or.inr ⟨{ id := 7, user_id := 1, token := "tokX", expires_at := 10 }, rfl, by decide⟩)
  · exact verify_token_miss_and_expiry_agree expiredTokStore "missing" 20 (Or.inl rfl)

/-- C8: registration double-hashes — the register endpoint (src/main.py line 178)
replaces the plaintext password with its digest before the service runs, and
`UserRepository.create_user` hashes the received value again, so the stored
`hashed_password` is the digest of the intermediate digest: it verifies against the
intermediate digest and does not verify against the original plaintext password. -/
theorem register_double_hash (store : Store) (nextId : Nat)
    (username email password : String) :
    (UserRepository.create_user store nextId username email
        (Hash.get_password_hash password)).2.hashed_password
      = bcryptHash (Hash.get_password_hash password) ∧
    Hash.verify_password (Hash.get_password_hash password)
      (UserRepository.create_user store nextId username email
        (Hash.get_password_hash password)).2.hashed_password = true ∧
    Hash.verify_password password
      (UserRepository.create_user store nextId username email
        (Hash.get_password_hash password)).2.hashed_password = false := by
  refine ⟨rfl, ?_, ?_⟩
  · exact verify_password_self (Hash.get_password_hash password)
  · exact verify_password_ne fun h => bcryptHash_ne_self password h.symm

/-- C9: every registration through `UserService.create_user` raises `TypeError`
before any user is persisted — the service supplies three positional values
(`self`, `body`, `avatar`) to a repository method declaring two (`self`, `user`) —
and the store is returned unchanged, so the fetched avatar is never stored. -/
theorem service_create_user_type_error (store : Store) (nextId : Nat)
    (username email password : String) (avatar : Option String) :
    UserService.create_user store nextId username email password avatar
      = (store, Except.error
          (PyErr.typeError "create_user() takes 2 positional arguments but 3 were given")) :=
  rfl

/-- C5 (failing run): logging in with an email no user has does not reach the
generic-message `Unauthorized` branch — `user.username` is evaluated on `None`
before the null check and the request dies with `AttributeError`. -/
theorem login_unknown_email_crashes :
    login_user emptyStore emptyCache "nobody@example.com" "secret" 0
      = LoginResult.attributeError "NoneType object has no attribute username" :=
  rfl

/-- C6 (failing run): a refresh request whose token verifies and whose subject user
exists never returns a new access token — the handler calls
`UserService.get_user_by_username(username)` on the class, so the call raises
`TypeError` before the lookup. -/
theorem refresh_valid_token_crashes :
    refresh_token_handler storeAliceOnly (create_refresh_token (some "alice") 0) 5
      = RefreshResult.typeError "get_user_by_username() missing 1 required positional argument" :=
  rfl

/-- C10: login succeeds only when a session-cache entry exists for the user — an
unknown email dies with `AttributeError` (dereferencing `None` before the null
check), a known email with a cache miss dies with `TypeError` (subscripting the ORM
object), and any successful login implies the user was found and the cache held an
entry under the user's username. -/
theorem login_requires_cache_hit (store : Store) (cache : String → Option CachedUser)
    (email password : String) (now : Int) :
    (selectUserByEmail store email = none →
      login_user store cache email password now
        = LoginResult.attributeError "NoneType object has no attribute username") ∧
    (∀ u, selectUserByEmail store email = some u →
      cache ("user:" ++ u.username) = none →
      login_user store cache email password now
        = LoginResult.typeError "User object is not subscriptable") ∧
    (∀ a r, login_user store cache email password now = LoginResult.success a r →
      ∃ u c, selectUserByEmail store email = some u ∧
        cache ("user:" ++ u.username) = some c) := by
  refine ⟨?_, ?_, ?_⟩
  · intro h
    simp [login_user, h]
  · intro u hu hc
    simp [login_user, hu, hc]
  · intro a r h
    cases hu : selectUserByEmail store email with
    | none =>
      have h2 : login_user store cache email password now
          = LoginResult.attributeError "NoneType object has no attribute username" := by
        simp [login_user, hu]
      rw [h2] at h
      simp at h
    | some u =>
      cases hc : cache ("user:" ++ u.username) with
      | none =>
        have h2 : login_user store cache email password now
            = LoginResult.typeError "User object is not subscriptable" := by
          simp [login_user, hu, hc]
        rw [h2] at h
        simp at h
      | some c => exact ⟨u, c, rfl, hc⟩

/-- Witness for C10: in a concrete empty store the login crashes with
`AttributeError`; with a user present but an empty cache it crashes with
`TypeError`. -/
theorem login_requires_cache_hit_w :
    login_user emptyStore emptyCache "ghost@example.com" "pw" 0
      = LoginResult.attributeError "NoneType object has no attribute username" ∧
    login_user storeAliceOnly emptyCache "alice@example.com" "pw" 0
      = LoginResult.typeError "User object is not subscriptable" := by
  constructor
  · exact (login_requires_cache_hit emptyStore emptyCache "ghost@example.com" "pw" 0).1 rfl
  · exact (login_requires_cache_hit storeAliceOnly emptyCache
      "alice@example.com" "pw" 0).2.1 aliceRow rfl rfl

/-- C3: a token issued by `create_access_token` with subject `sub` and positive
`ttl` verifies to exactly that subject at every time strictly before `iss + ttl`
(here through `get_email_from_token`, whose underlying decode also powers
`get_current_user`), and at every time strictly after `iss + ttl` the decode fails
with the `Expired` error. -/
theorem access_token_roundtrip (subject : String) (ttl iss t t' : Int)
    (httl : 0 < ttl) (hbefore : t < iss + ttl) (hafter : iss + ttl < t') :
    get_email_from_token (create_access_token (some subject) (some ttl) iss) t
      = Except.ok subject ∧
    jwtDecode (create_access_token (some subject) (some ttl) iss) JWT_SECRET
      [JWT_ALGORITHM] t' = Except.error JoseError.expired := by
  have hne : ¬ ttl = 0 := by omega
  have h1 : ¬ (iss + ttl < t) := by omega
  have h2 : iss + ttl < t' := hafter
  constructor
  · simp [get_email_from_token, create_access_token, jwtDecode, jwtEncode, hne, h1]
  · simp [create_access_token, jwtDecode, jwtEncode, hne, h2]

/-- Witness for C3: subject "alice", ttl 60 issued at time 0 — verification at 59
returns "alice", decoding at 61 fails with `Expired`. -/
theorem access_token_roundtrip_w :
    get_email_from_token (create_access_token (some "alice") (some 60) 0) 59
      = Except.ok "alice" ∧
    jwtDecode (create_access_token (some "alice") (some 60) 0) JWT_SECRET
      [JWT_ALGORITHM] 61 = Except.error JoseError.expired :=
  access_token_roundtrip "alice" 60 0 59 61 (by decide) (by decide) (by decide)

/-- C7 (counterexample): a valid email-token whose subject user is already verified
does not succeed as a no-op — the `verify_email` handler raises HTTP 400
"Email is already verified". -/
theorem verify_email_already_verified_errors :
    verify_email_handler storeBob (create_email_token (some "bob@example.com") 0) 10
      = (storeBob, VerifyEmailResult.httpError 400 "Email is already verified") :=
  rfl

/-- C7 (amended): for every valid email-token handled by `verify_email`: if no user
exists with the decoded subject email the handler fails with 404 NotFound; if the
user is already verified it fails with 400 BadRequest (not a no-op success);
otherwise it reports success but does not persist the change — the `db.commit()`
coroutine is never awaited, so the committed store is returned exactly as it was and
the user row in it is still unverified. -/
theorem verify_email_semantics (store : Store) (tok : Jwt) (now : Int) (email : String)
    (hdec : get_email_from_token tok now = Except.ok email) :
    (selectUserByEmail store email = none →
      verify_email_handler store tok now
        = (store, VerifyEmailResult.httpError 404 "User not found")) ∧
    (∀ u, selectUserByEmail store email = some u → u.is_verified = true →
      verify_email_handler store tok now
        = (store, VerifyEmailResult.httpError 400 "Email is already verified")) ∧
    (∀ u, selectUserByEmail store email = some u → u.is_verified = false →
      verify_email_handler store tok now
        = (store, VerifyEmailResult.ok "Email successfully verified") ∧
      selectUserByEmail (verify_email_handler store tok now).1 email = some u ∧
      u.is_verified = false) := by
  refine ⟨?_, ?_, ?_⟩
  · intro h
    simp [verify_email_handler, hdec, h]
  · intro u hu hv
    simp [verify_email_handler, hdec, hu, hv]
  · intro u hu hv
    have hres : verify_email_handler store tok now
        = (store, VerifyEmailResult.ok "Email successfully verified") := by
      simp [verify_email_handler, hdec, hu, hv]
    exact ⟨hres, by rw [hres]; exact hu, hv⟩

/-- Witness for C7 (amended): concrete unverified user "carol" — the handler reports
success, yet the committed store is unchanged and carol's row in it is still
unverified. -/
theorem verify_email_semantics_w :
    verify_email_handler storeCarol (create_email_token (some "carol@example.com") 0) 10
      = (storeCarol, VerifyEmailResult.ok "Email successfully verified") ∧
    selectUserByEmail
        (verify_email_handler storeCarol (create_email_token (some "carol@example.com") 0) 10).1
        "carol@example.com" = some carolRow ∧
    carolRow.is_verified = false :=
  (verify_email_semantics storeCarol (create_email_token (some "carol@example.com") 0) 10
    "carol@example.com" rfl).2.2 carolRow rfl rfl

/-- C1: the reset token is single-use — after `reset_password(T, p2)` succeeds on a
fresh session (no pending changes, token strings unique), a second
`reset_password(T, p3)` returns absent (`none`) with the store unchanged, and the
user's committed `hashed_password` verifies against `p2` and not against `p3`. -/
theorem reset_token_single_use (sess sess1 : DbSession) (T p2 p3 : String)
    (now now2 : Int) (u1 : UserRec)
    (hfresh : sess.pending = [])
    (hlen : (sess.committed.resetTokens.filter fun r => r.token == T).length ≤ 1)
    (h1 : PasswordResetService.reset_password sess T p2 now true
      = (sess1, Except.ok (some u1)))
    (hne : p2 ≠ p3) :
    PasswordResetService.reset_password sess1 T p3 now2 true = (sess1, Except.ok none) ∧
    ∃ w, selectUserById sess1.committed u1.id = some w ∧
      Hash.verify_password p2 w.hashed_password = true ∧
      Hash.verify_password p3 w.hashed_password = false := by
  cases hv : PasswordResetService.verify_token sess.committed T now with
  | none =>
    rw [reset_password_invalid_shape sess T p2 now true hv] at h1
    exfalso
    simp only [Prod.mk.injEq] at h1
    simp at h1
  | some rt =>
    cases hu : selectUserById sess.committed rt.user_id with
    | none =>
      rw [reset_password_nouser_shape sess T p2 now true rt hv hu] at h1
      exfalso
      simp only [Prod.mk.injEq] at h1
      simp at h1
    | some u =>
      rw [reset_password_success_shape sess T p2 now rt u hv hu] at h1
      simp only [hfresh, List.nil_append, List.foldl_cons, List.foldl_nil,
        Prod.mk.injEq] at h1
      obtain ⟨h1a, h1b⟩ := h1
      simp only [Except.ok.injEq, Option.some.injEq] at h1b
      subst h1b
      subst h1a
      -- facts about the first run's committed store
      have hid : u.id = rt.user_id := selectUserById_id hu
      have hf : sess.committed.users.find? (fun x : UserRec => x.id == u.id) = some u := by
        have h3 : selectUserById sess.committed u.id = some u := by rw [hid]; exact hu
        simpa [selectUserById] using h3
      have hmap := find?_users_setPassword sess.committed.users u.id (bcryptHash p2) u hf
      have hfind : sess.committed.resetTokens.find?
          (fun r : PasswordResetToken => r.token == T) = some rt := by
        simpa [selectTokenByString] using verify_token_some_select hv
      have htok := find?_token_erased sess.committed.resetTokens T rt hlen hfind
      constructor
      · -- the second redemption finds no token and changes nothing
        apply reset_password_invalid_shape
        unfold PasswordResetService.verify_token
        have hsel : selectTokenByString
            (applyChange (applyChange sess.committed
              (Change.setPassword u.id (bcryptHash p2))) (Change.deleteToken rt.id)) T
            = none := by
          simpa [selectTokenByString, applyChange] using htok
        rw [hsel]
      · refine ⟨{ u with hashed_password := bcryptHash p2 }, ?_, ?_, ?_⟩
        · simpa [selectUserById, applyChange] using hmap
        · exact verify_password_self p2
        · exact verify_password_ne (Ne.symm hne)

/-- Witness for C1: concrete run — redeeming alice's token with "pw2" at time 0,
then replaying the same token with "pw3" at time 99. -/
theorem reset_token_single_use_w :
    PasswordResetService.reset_password sessResetA' "reset-token-1" "pw3" 99 true
      = (sessResetA', Except.ok none) ∧
    ∃ w, selectUserById sessResetA'.committed 1 = some w ∧
      Hash.verify_password "pw2" w.hashed_password = true ∧
      Hash.verify_password "pw3" w.hashed_password = false :=
  reset_token_single_use sessResetA sessResetA' "reset-token-1" "pw2" "pw3" 0 99
    aliceRowAfter rfl (by decide) rfl (by decide)

/-- C2: `reset_password` is atomic — on a fresh session with unique token strings,
either it succeeds and the committed store holds both changes (the user row carries
the new digest and the consumed token row is gone), or no user is returned (failed
verification, missing user row, or a rejected commit) and the committed store is
exactly as before. -/
theorem reset_password_atomic (sess : DbSession) (T p : String) (now : Int) (ok : Bool)
    (hfresh : sess.pending = [])
    (hlen : (sess.committed.resetTokens.filter fun r => r.token == T).length ≤ 1) :
    (∃ u, (PasswordResetService.reset_password sess T p now ok).2 = Except.ok (some u) ∧
      (∃ w, selectUserById
          (PasswordResetService.reset_password sess T p now ok).1.committed u.id
            = some w ∧ w.hashed_password = bcryptHash p) ∧
      selectTokenByString
        (PasswordResetService.reset_password sess T p now ok).1.committed T = none) ∨
    ((PasswordResetService.reset_password sess T p now ok).1.committed = sess.committed ∧
      ∀ u, (PasswordResetService.reset_password sess T p now ok).2
        ≠ Except.ok (some u)) := by
  cases hv : PasswordResetService.verify_token sess.committed T now with
  | none =>
    right
    rw [reset_password_invalid_shape sess T p now ok hv]
    refine ⟨rfl, ?_⟩
    intro u h
    simp at h
  | some rt =>
    cases hu : selectUserById sess.committed rt.user_id with
    | none =>
      right
      rw [reset_password_nouser_shape sess T p now ok rt hv hu]
      refine ⟨rfl, ?_⟩
      intro u h
      simp at h
    | some u =>
      cases ok with
      | false =>
        right
        rw [reset_password_commitfail_shape sess T p now rt u hv hu]
        refine ⟨rfl, ?_⟩
        intro u' h
        simp at h
      | true =>
        left
        rw [reset_password_success_shape sess T p now rt u hv hu]
        simp only [hfresh, List.nil_append, List.foldl_cons, List.foldl_nil]
        have hid : u.id = rt.user_id := selectUserById_id hu
        have hf : sess.committed.users.find? (fun x : UserRec => x.id == u.id) = some u := by
          have h3 : selectUserById sess.committed u.id = some u := by rw [hid]; exact hu
          simpa [selectUserById] using h3
        have hmap := find?_users_setPassword sess.committed.users u.id (bcryptHash p) u hf
        have hfind : sess.committed.resetTokens.find?
            (fun r : PasswordResetToken => r.token == T) = some rt := by
          simpa [selectTokenByString] using verify_token_some_select hv
        have htok := find?_token_erased sess.committed.resetTokens T rt hlen hfind
        refine ⟨{ u with hashed_password := bcryptHash p }, rfl, ?_, ?_⟩
        · refine ⟨{ u with hashed_password := bcryptHash p }, ?_, rfl⟩
          simpa [selectUserById, applyChange] using hmap
        · simpa [selectTokenByString, applyChange] using htok

/-- Witness for C2: the concrete run of C1's first redemption, showing the success
side of the disjunction at an explicit input. -/
theorem reset_password_atomic_w :
    (∃ u, (PasswordResetService.reset_password sessResetA "reset-token-1" "pw2" 0 true).2
        = Except.ok (some u) ∧
      (∃ w, selectUserById
          (PasswordResetService.reset_password sessResetA "reset-token-1" "pw2" 0 true).1.committed
            u.id = some w ∧ w.hashed_password = bcryptHash "pw2") ∧
      selectTokenByString
        (PasswordResetService.reset_password sessResetA "reset-token-1" "pw2" 0 true).1.committed
        "reset-token-1" = none) ∨
    ((PasswordResetService.reset_password sessResetA "reset-token-1" "pw2" 0 true).1.committed
        = sessResetA.committed ∧
      ∀ u, (PasswordResetService.reset_password sessResetA "reset-token-1" "pw2" 0 true).2
        ≠ Except.ok (some u)) :=
  reset_password_atomic sessResetA "reset-token-1" "pw2" 0 true rfl (by decide)

end Spec2Proof
